import Mathlib

/-!
Verification of the Oriel Cornerstone 260 monochromator driver
(`oriel_cornerstone_260/monochromator.ipynb`).

The driver is a thin class over a pyserial `Serial` object: it frames
commands (uppercase, append the `"\r\n"` terminator, encode as UTF-8),
writes them, and reads terminator-delimited lines back.  We embed the
driver shallowly: every method becomes a Lean function threading an
explicit transport state, and every Python exception becomes a
constructor of `PyError`.

The serial port itself is an external collaborator (pyserial), out of
scope of the repository.  It is modelled from the spec's Transport
contract (section 6): `readUntil` either yields the bytes of one line
(delimiter included) or fails with a timeout or I/O error, and reading
or writing on a closed port fails with the port-not-open error that
pyserial raises.  A `Serial` value carries a script of future read
outcomes plus a trace (bytes written, number of write/read invocations)
so that theorems can speak about how much I/O an operation performed.
-/

namespace Cornerstone

/-- Python exceptions and spec error taxonomy relevant to the driver. -/
inductive PyError where
  /-- Python `IndexError` (e.g. `msg[-1]` on an empty string). -/
  | indexError
  /-- Python `AttributeError` (attribute lookup failed). -/
  | attributeError
  /-- pyserial `PortNotOpenError`: I/O attempted on a closed port. -/
  | portNotOpen
  /-- Transport read timed out before the terminator was observed. -/
  | timeoutError
  /-- Underlying transport I/O failure. -/
  | transportError
  /-- Received bytes are not valid in the fixed (UTF-8) encoding. -/
  | encodingError
  /-- Python `ValueError` from `float(...)`/`int(...)`: the spec's ParseError. -/
  | valueError
  /-- The spec's NotConnectedError.  Listed for comparison: the source
      code never defines or raises such an error. -/
  | notConnectedError
deriving DecidableEq, Repr

/-- Bytes returned by one transport read, as seen by the decoder:
either they decode to a string under UTF-8, or they do not. -/
inductive RawBytes where
  | decodable (s : String)
  | undecodable
deriving DecidableEq, Repr

/-- Modelled from the spec: one future outcome of `readUntil` on the
Transport (section 6 contract) — a line of bytes (delimiter included
when the device sent one), a timeout (terminator never observed within
the configured timeout), or a transport-level I/O failure. -/
inductive ReadEvent where
  | bytes (b : RawBytes)
  | timeout
  | ioError
deriving DecidableEq, Repr

/-- Modelled from the spec: the pyserial `Serial` object (external
collaborator).  `script` is the device side: the outcomes the next
reads will see.  `written`, `writeCalls` and `readCalls` are the I/O
trace used to state how much transport I/O the driver performed. -/
structure Serial where
  is_open : Bool
  timeout : Nat
  script : List ReadEvent
  written : List (List Nat)
  writeCalls : Nat
  readCalls : Nat
deriving DecidableEq, Repr

/-- `serial.Serial.write(bytes)`: on an open port, appends the payload
to the trace and reports the number of bytes written; on a closed port
pyserial raises `PortNotOpenError` before writing anything.  The call
counter increments either way (the invocation happened). -/
def serialWrite (b : List Nat) (com : Serial) : Serial × Except PyError Nat :=
  if com.is_open then
    ({ com with writeCalls := com.writeCalls + 1, written := com.written ++ [b] },
     Except.ok b.length)
  else
    ({ com with writeCalls := com.writeCalls + 1 }, Except.error PyError.portNotOpen)

/-- `serial.Serial.read_until(term)`: consumes the next scripted read
outcome.  An exhausted script reads as a timeout (silent device); a
closed port raises `PortNotOpenError`. -/
def serialReadUntil (com : Serial) : Serial × Except PyError RawBytes :=
  if com.is_open then
    match com.script with
    | [] => ({ com with readCalls := com.readCalls + 1 }, Except.error PyError.timeoutError)
    | ReadEvent.bytes b :: rest =>
        ({ com with readCalls := com.readCalls + 1, script := rest }, Except.ok b)
    | ReadEvent.timeout :: rest =>
        ({ com with readCalls := com.readCalls + 1, script := rest },
         Except.error PyError.timeoutError)
    | ReadEvent.ioError :: rest =>
        ({ com with readCalls := com.readCalls + 1, script := rest },
         Except.error PyError.transportError)
  else
    ({ com with readCalls := com.readCalls + 1 }, Except.error PyError.portNotOpen)

/-- `serial.Serial.open()`: reopens a closed port; pyserial raises a
`SerialException` (a transport-level error) if the port is already open. -/
def serialOpen (com : Serial) : Serial × Except PyError Unit :=
  if com.is_open then (com, Except.error PyError.transportError)
  else ({ com with is_open := true }, Except.ok ())

/-- `serial.Serial.close()`: idempotent, marks the port closed. -/
def serialClose (com : Serial) : Serial :=
  { com with is_open := false }

/-- Python `str.upper()`, character-wise (the protocol strings are
ASCII, where Python's and Lean's per-character uppercase agree). -/
def pyUpper (s : String) : String :=
  String.mk (s.data.map Char.toUpper)

/-- Python `str.rstrip()`: drop trailing whitespace characters. -/
def pyRstrip (s : String) : String :=
  String.mk ((s.data.reverse.dropWhile Char.isWhitespace).reverse)

/-- Python `str.strip()`: drop leading and trailing whitespace. -/
def pyStrip (s : String) : String :=
  String.mk (((s.data.dropWhile Char.isWhitespace).reverse.dropWhile
    Char.isWhitespace).reverse)

/-- UTF-8 encoding of one character (by Unicode scalar value). -/
def utf8EncodeChar (c : Char) : List Nat :=
  let n := c.toNat
  if n < 0x80 then [n]
  else if n < 0x800 then
    [0xC0 ||| (n >>> 6), 0x80 ||| (n &&& 0x3F)]
  else if n < 0x10000 then
    [0xE0 ||| (n >>> 12), 0x80 ||| ((n >>> 6) &&& 0x3F), 0x80 ||| (n &&& 0x3F)]
  else
    [0xF0 ||| (n >>> 18), 0x80 ||| ((n >>> 12) &&& 0x3F),
     0x80 ||| ((n >>> 6) &&& 0x3F), 0x80 ||| (n &&& 0x3F)]

/-- Python `str.encode('utf-8')` as a byte list. -/
def utf8Bytes (s : String) : List Nat :=
  s.data.flatMap utf8EncodeChar

/-- Digits of a decimal literal folded to a natural number. -/
def natOfDigits (l : List Char) : Nat :=
  l.foldl (fun acc c => 10 * acc + (c.toNat - '0'.toNat)) 0

/-- Python `int(s)`: optional surrounding whitespace, optional sign,
then a non-empty digit string (underscore separators not modelled). -/
def pyInt (s : String) : Option Int :=
  match (pyStrip s).data with
  | [] => none
  | '-' :: ds =>
      if ds ≠ [] ∧ ds.all Char.isDigit then some (-(natOfDigits ds : Int)) else none
  | '+' :: ds =>
      if ds ≠ [] ∧ ds.all Char.isDigit then some (natOfDigits ds : Int) else none
  | ds =>
      if ds.all Char.isDigit then some (natOfDigits ds : Int) else none

/-- Mantissa of a Python float literal: digits with an optional point. -/
def floatMantissaOk (l : List Char) : Bool :=
  let ip := l.takeWhile Char.isDigit
  match l.dropWhile Char.isDigit with
  | [] => !ip.isEmpty
  | '.' :: frac => frac.all Char.isDigit && (!ip.isEmpty || !frac.isEmpty)
  | _ => false

/-- Exponent part of a Python float literal (starting at `e`/`E`). -/
def floatExpOk (l : List Char) : Bool :=
  match l with
  | [] => false
  | _e :: rest =>
      match rest with
      | [] => false
      | c :: ds =>
          if c == '+' || c == '-' then !ds.isEmpty && ds.all Char.isDigit
          else !rest.isEmpty && rest.all Char.isDigit

/-- Whether Python `float(s)` succeeds.  The numeric value of the float
is out of scope (floating point); only parse success is modelled.
`inf`/`nan` and underscore separators are not modelled. -/
def pyFloatOk (s : String) : Bool :=
  let t := (pyStrip s).data
  let t := match t with
           | c :: rest => if c == '+' || c == '-' then rest else t
           | [] => t
  let mant := t.takeWhile (fun c => c != 'e' && c != 'E')
  let rest := t.dropWhile (fun c => c != 'e' && c != 'E')
  floatMantissaOk mant && (rest.isEmpty || floatExpOk rest)

/-- `Response = namedtuple('Response', ['statement', 'response'])`. -/
structure Response where
  statement : String
  response : String
deriving DecidableEq, Repr

/-- The `Monochromator` object: `port`, `term_chars`, `encoding` and
the owned serial object `_com`, exactly the attributes `__init__` sets. -/
structure Monochromator where
  port : String
  term_chars : String
  encoding : String
  _com : Serial
deriving DecidableEq, Repr

/-- `Monochromator.__init__(port, timeout)`: sets `term_chars = '\r\n'`,
`encoding = 'utf-8'` and constructs `serial.Serial(port, timeout=timeout)`,
which opens the port immediately (pyserial with a port argument).
`script` supplies the external device's future read outcomes. -/
def Monochromator.init (port : String) (timeout : Nat)
    (script : List ReadEvent) : Monochromator :=
  { port := port
    term_chars := "\r\n"
    encoding := "utf-8"
    _com :=
      { is_open := true
        timeout := timeout
        script := script
        written := []
        writeCalls := 0
        readCalls := 0 } }

/-- `Monochromator.__del__`: closes the serial port. -/
def Monochromator.del (m : Monochromator) : Monochromator :=
  { m with _com := serialClose m._com }

/-- `Monochromator.connect`: `self._com.open()`. -/
def Monochromator.connect (m : Monochromator) : Monochromator × Except PyError Unit :=
  let r := serialOpen m._com
  ({ m with _com := r.1 }, r.2)

/-- `Monochromator.disconnect`: `self._com.close()`. -/
def Monochromator.disconnect (m : Monochromator) : Monochromator :=
  { m with _com := serialClose m._com }

/-- `Monochromator.write(msg)`: append `term_chars`, uppercase, encode
with the fixed `'utf-8'` encoding set at construction, and hand the
bytes to `self._com.write`, returning its byte count. -/
def Monochromator.write (msg : String) (m : Monochromator) :
    Monochromator × Except PyError Nat :=
  let msg := msg ++ m.term_chars
  let msg := pyUpper msg
  let b := utf8Bytes msg
  let r := serialWrite b m._com
  ({ m with _com := r.1 }, r.2)

/-- `Monochromator.read()`: `self._com.read_until(term)` then
`.decode('utf-8')`; undecodable bytes raise the encoding error, and
transport errors propagate untouched. -/
def Monochromator.read (m : Monochromator) : Monochromator × Except PyError String :=
  let r := serialReadUntil m._com
  let m' := { m with _com := r.1 }
  match r.2 with
  | Except.ok (RawBytes.decodable s) => (m', Except.ok s)
  | Except.ok RawBytes.undecodable => (m', Except.error PyError.encodingError)
  | Except.error e => (m', Except.error e)

/-- `Monochromator.command(cmd, *args)`: builds
`cmd + ' ' + ' '.join(map(str, args))` (arguments are passed here
already in their `str` form), writes it, then reads once and returns
the line with trailing whitespace stripped. -/
def Monochromator.command (cmd : String) (args : List String)
    (m : Monochromator) : Monochromator × Except PyError String :=
  let msg := cmd ++ " " ++ String.intercalate " " args
  match Monochromator.write msg m with
  | (m, Except.error e) => (m, Except.error e)
  | (m, Except.ok _) =>
    match Monochromator.read m with
    | (m, Except.error e) => (m, Except.error e)
    | (m, Except.ok s) => (m, Except.ok (pyRstrip s))

/-- `Monochromator.query(msg)`: `if msg[-1] != '?': msg += '?'` (an
empty `msg` makes `msg[-1]` raise `IndexError` before any I/O), then
one `write` and two `read`s; both lines are returned rstripped as
`Response(statement, response)`. -/
def Monochromator.query (msg : String) (m : Monochromator) :
    Monochromator × Except PyError Response :=
  match msg.data.getLast? with
  | none => (m, Except.error PyError.indexError)
  | some c =>
    let msg := if c ≠ '?' then msg ++ "?" else msg
    match Monochromator.write msg m with
    | (m, Except.error e) => (m, Except.error e)
    | (m, Except.ok _) =>
      match Monochromator.read m with
      | (m, Except.error e) => (m, Except.error e)
      | (m, Except.ok s1) =>
        match Monochromator.read m with
        | (m, Except.error e) => (m, Except.error e)
        | (m, Except.ok s2) =>
            (m, Except.ok { statement := pyRstrip s1, response := pyRstrip s2 })

/-- `Monochromator.info`: `query('info').response`. -/
def Monochromator.info (m : Monochromator) : Monochromator × Except PyError String :=
  match Monochromator.query "info" m with
  | (m, Except.error e) => (m, Except.error e)
  | (m, Except.ok r) => (m, Except.ok r.response)

/-- `Monochromator.position`: `float(query('wave').response)`.  The
float's numeric value is out of scope; the accepted literal is returned
and a parse failure raises `ValueError` as Python's `float` does. -/
def Monochromator.position (m : Monochromator) : Monochromator × Except PyError String :=
  match Monochromator.query "wave" m with
  | (m, Except.error e) => (m, Except.error e)
  | (m, Except.ok r) =>
      if pyFloatOk r.response then (m, Except.ok r.response)
      else (m, Except.error PyError.valueError)

/-- `Monochromator.goto(wavelength)`: `command('gowave', w)` then
`self.position`.  The `'{:.3f}'.format(wavelength)` step is floating
point formatting, out of scope: the formatted string is taken as given. -/
def Monochromator.goto (wavelengthStr : String) (m : Monochromator) :
    Monochromator × Except PyError String :=
  match Monochromator.command "gowave" [wavelengthStr] m with
  | (m, Except.error e) => (m, Except.error e)
  | (m, Except.ok _) => Monochromator.position m

/-- `Monochromator.abort`: `command('abort')` (no arguments). -/
def Monochromator.abort (m : Monochromator) : Monochromator × Except PyError Unit :=
  match Monochromator.command "abort" [] m with
  | (m, Except.error e) => (m, Except.error e)
  | (m, Except.ok _) => (m, Except.ok ())

/-- `Monochromator.grating`: the source runs
`resp = self.query('grat').split(',')`, but `query` returns the
`Response` namedtuple, which has no `split` attribute, so Python raises
`AttributeError` before the number/lines/label dictionary is built. -/
def Monochromator.grating (m : Monochromator) :
    Monochromator × Except PyError (String × String × String) :=
  match Monochromator.query "grat" m with
  | (m, Except.error e) => (m, Except.error e)
  | (m, Except.ok _resp) => (m, Except.error PyError.attributeError)

/-- `Monochromator.set_grating(grating)`: `command('grat', str(grating))`. -/
def Monochromator.set_grating (grating : Int) (m : Monochromator) :
    Monochromator × Except PyError Unit :=
  match Monochromator.command "grat" [toString grating] m with
  | (m, Except.error e) => (m, Except.error e)
  | (m, Except.ok _) => (m, Except.ok ())

/-- `Monochromator.shuttered`: `query('shutter').response == 'C'`. -/
def Monochromator.shuttered (m : Monochromator) : Monochromator × Except PyError Bool :=
  match Monochromator.query "shutter" m with
  | (m, Except.error e) => (m, Except.error e)
  | (m, Except.ok r) => (m, Except.ok (r.response == "C"))

/-- `Monochromator.shutter(close)`: `command('shutter', 'C'|'O')`. -/
def Monochromator.shutter (close : Bool) (m : Monochromator) :
    Monochromator × Except PyError Unit :=
  let cmd := if close then "C" else "O"
  match Monochromator.command "shutter" [cmd] m with
  | (m, Except.error e) => (m, Except.error e)
  | (m, Except.ok _) => (m, Except.ok ())

/-- `Monochromator.outport`: `int(query('outport').response)`. -/
def Monochromator.outport (m : Monochromator) : Monochromator × Except PyError Int :=
  match Monochromator.query "outport" m with
  | (m, Except.error e) => (m, Except.error e)
  | (m, Except.ok r) =>
      match pyInt r.response with
      | some n => (m, Except.ok n)
      | none => (m, Except.error PyError.valueError)

/-- `Monochromator.set_outport(port)`: `command('outport', str(port))`. -/
def Monochromator.set_outport (port : Int) (m : Monochromator) :
    Monochromator × Except PyError Unit :=
  match Monochromator.command "outport" [toString port] m with
  | (m, Except.error e) => (m, Except.error e)
  | (m, Except.ok _) => (m, Except.ok ())

/-- `Monochromator.slit_width(slit, width)`: with a width, first
`command('slit{slit}microns', str(width))`; then always
`int(query('slit{slit}microns').response)`. -/
def Monochromator.slit_width (slit : Int) (width : Option Int)
    (m : Monochromator) : Monochromator × Except PyError Int :=
  let cmd := "slit" ++ toString slit ++ "microns"
  let step : Monochromator × Except PyError Unit :=
    match width with
    | some w =>
        match Monochromator.command cmd [toString w] m with
        | (m, Except.error e) => (m, Except.error e)
        | (m, Except.ok _) => (m, Except.ok ())
    | none => (m, Except.ok ())
  match step with
  | (m, Except.error e) => (m, Except.error e)
  | (m, Except.ok _) =>
    match Monochromator.query cmd m with
    | (m, Except.error e) => (m, Except.error e)
    | (m, Except.ok r) =>
        match pyInt r.response with
        | some n => (m, Except.ok n)
        | none => (m, Except.error PyError.valueError)



/-! ## Demonstration states for concrete evaluations -/

/-- A freshly constructed driver on `COM9` with timeout 5 and the given
device-side read script. -/
def demoM (script : List ReadEvent) : Monochromator :=
  Monochromator.init "COM9" 5 script

/-- A device script answering one query: the echoed statement line and
the response line. -/
def demoScript (s1 s2 : String) : List ReadEvent :=
  [ReadEvent.bytes (RawBytes.decodable s1), ReadEvent.bytes (RawBytes.decodable s2)]

/-- A driver whose port has been closed by `disconnect`. -/
def demoDisconnected : Monochromator :=
  Monochromator.disconnect (demoM [])

/-- The driver state after a single transport write attempt on a
closed port: the invocation is counted, but nothing was written and
nothing was read. -/
def failedWriteState (m : Monochromator) : Monochromator :=
  { m with _com := { m._com with writeCalls := m._com.writeCalls + 1 } }

/-! ## Helper lemmas -/

theorem pyUpper_append (a b : String) : pyUpper (a ++ b) = pyUpper a ++ pyUpper b := by
  apply String.ext
  simp [pyUpper, String.data_append]

theorem pyUpper_term : pyUpper "\r\n" = "\r\n" := rfl

theorem write_open (msg : String) (m : Monochromator) (h : m._com.is_open = true) :
    Monochromator.write msg m =
      ({ m with _com := { m._com with
          writeCalls := m._com.writeCalls + 1,
          written := m._com.written ++ [utf8Bytes (pyUpper (msg ++ m.term_chars))] } },
       Except.ok (utf8Bytes (pyUpper (msg ++ m.term_chars))).length) := by
  simp [Monochromator.write, serialWrite, h]

theorem write_closed (msg : String) (m : Monochromator) (h : m._com.is_open = false) :
    Monochromator.write msg m =
      ({ m with _com := { m._com with writeCalls := m._com.writeCalls + 1 } },
       Except.error PyError.portNotOpen) := by
  simp [Monochromator.write, serialWrite, h]

theorem read_line (s : String) (rest : List ReadEvent) (m : Monochromator)
    (h : m._com.is_open = true)
    (hs : m._com.script = ReadEvent.bytes (RawBytes.decodable s) :: rest) :
    Monochromator.read m =
      ({ m with _com := { m._com with readCalls := m._com.readCalls + 1, script := rest } },
       Except.ok s) := by
  simp [Monochromator.read, serialReadUntil, h, hs]

theorem query_closed (msg : String) (c : Char) (m : Monochromator)
    (hmsg : msg.data.getLast? = some c) (h : m._com.is_open = false) :
    Monochromator.query msg m =
      ({ m with _com := { m._com with writeCalls := m._com.writeCalls + 1 } },
       Except.error PyError.portNotOpen) := by
  by_cases hcq : c = '?' <;>
    simp [Monochromator.query, hmsg, hcq, Monochromator.write, serialWrite, h]

theorem command_closed (cmd : String) (args : List String) (m : Monochromator)
    (h : m._com.is_open = false) :
    Monochromator.command cmd args m =
      ({ m with _com := { m._com with writeCalls := m._com.writeCalls + 1 } },
       Except.error PyError.portNotOpen) := by
  simp [Monochromator.command, Monochromator.write, serialWrite, h]


theorem query_two_lines (msg : String) (c : Char) (s1 s2 : String)
    (rest : List ReadEvent) (m : Monochromator)
    (hmsg : msg.data.getLast? = some c)
    (hopen : m._com.is_open = true)
    (hs : m._com.script = ReadEvent.bytes (RawBytes.decodable s1) ::
            ReadEvent.bytes (RawBytes.decodable s2) :: rest) :
    Monochromator.query msg m =
      ({ m with _com := { m._com with
          script := rest,
          written := m._com.written ++
            [utf8Bytes (pyUpper ((if c ≠ '?' then msg ++ "?" else msg) ++ m.term_chars))],
          writeCalls := m._com.writeCalls + 1,
          readCalls := m._com.readCalls + 1 + 1 } },
       Except.ok { statement := pyRstrip s1, response := pyRstrip s2 }) := by
  by_cases hcq : c = '?' <;>
    simp [Monochromator.query, hmsg, hcq, Monochromator.write, Monochromator.read,
          serialWrite, serialReadUntil, hopen, hs]

/-! ## Claim theorems (first batch) -/

/-- C10: calling `query` with the empty string fails with the Python
index-out-of-range error raised by `msg[-1]` during the question-mark
normalization, before any transport write or read: the returned driver
state is exactly the input state. -/
theorem query_empty_msg_index_error (m : Monochromator) :
    Monochromator.query "" m = (m, Except.error PyError.indexError) := rfl

/-- C4: `grating` on a device that answers `query('grat')` with the
well-formed three-field response `1,600,VIS` does not return the
descriptor: it raises `AttributeError`, because the source calls
`.split(',')` on the `Response` namedtuple instead of on its
`response` field. -/
theorem grating_attribute_error_eval :
    (Monochromator.grating (demoM (demoScript "GRAT?\r\n" "1,600,VIS\r\n"))).2
      = Except.error PyError.attributeError := rfl

/-- C8: construction opens the transport and records the configured
timeout; the destructor `__del__` closes the transport, whether or not
`disconnect` was called first. -/
theorem init_opens_del_closes (port : String) (t : Nat)
    (script : List ReadEvent) (m : Monochromator) :
    (Monochromator.init port t script)._com.is_open = true ∧
    (Monochromator.init port t script)._com.timeout = t ∧
    (Monochromator.del m)._com.is_open = false :=
  ⟨rfl, rfl, rfl⟩

/-- C2: on an open port, `write(s)` hands the transport exactly the
UTF-8 bytes of `uppercase(s) ++ "\r\n"` and returns the byte count the
transport reports. -/
theorem write_sends_uppercase_terminated (s : String) (m : Monochromator)
    (hopen : m._com.is_open = true) (hterm : m.term_chars = "\r\n") :
    Monochromator.write s m =
      ({ m with _com := { m._com with
          writeCalls := m._com.writeCalls + 1,
          written := m._com.written ++ [utf8Bytes (pyUpper s ++ "\r\n")] } },
       Except.ok (utf8Bytes (pyUpper s ++ "\r\n")).length) := by
  rw [write_open s m hopen, hterm, pyUpper_append, pyUpper_term]

/-- C2 witness: the framing theorem applied to `gowave 500.000` on a
fresh driver. -/
theorem write_sends_uppercase_terminated_witness :
    ((demoM [])._com.is_open = true ∧ (demoM []).term_chars = "\r\n") ∧
    Monochromator.write "gowave 500.000" (demoM []) =
      ({ demoM [] with _com := { (demoM [])._com with
          writeCalls := (demoM [])._com.writeCalls + 1,
          written := (demoM [])._com.written ++
            [utf8Bytes (pyUpper "gowave 500.000" ++ "\r\n")] } },
       Except.ok (utf8Bytes (pyUpper "gowave 500.000" ++ "\r\n")).length) :=
  ⟨⟨rfl, rfl⟩, write_sends_uppercase_terminated "gowave 500.000" (demoM []) rfl rfl⟩

/-- C6 counterexample: the device's raw response line for a shutter
query is `"C\r\n"` — not the string `"C"` — yet `shuttered` returns
true, so "true exactly when the raw response line is `C`" fails. -/
theorem shuttered_raw_line_ce :
    (Monochromator.shuttered (demoM (demoScript "SHUTTER?\r\n" "C\r\n"))).2
        = Except.ok true ∧
    ("C\r\n" : String) ≠ "C" :=
  ⟨rfl, by decide⟩

/-- C1: on a non-empty message and a device that supplies two lines,
`query` performs exactly one transport write followed by exactly two
transport reads and returns the pair of both lines stripped of
trailing whitespace, first line as `statement`, second as `response`. -/
theorem query_one_write_two_reads (msg s1 s2 : String)
    (rest : List ReadEvent) (m : Monochromator)
    (hmsg : msg ≠ "")
    (hopen : m._com.is_open = true)
    (hs : m._com.script = ReadEvent.bytes (RawBytes.decodable s1) ::
            ReadEvent.bytes (RawBytes.decodable s2) :: rest) :
    (Monochromator.query msg m).2 =
        Except.ok { statement := pyRstrip s1, response := pyRstrip s2 } ∧
    (Monochromator.query msg m).1._com.writeCalls = m._com.writeCalls + 1 ∧
    (Monochromator.query msg m).1._com.readCalls = m._com.readCalls + 2 ∧
    (Monochromator.query msg m).1._com.written.length = m._com.written.length + 1 ∧
    (Monochromator.query msg m).1._com.script = rest := by
  obtain ⟨c, hc⟩ : ∃ c, msg.data.getLast? = some c := by
    cases hl : msg.data.getLast? with
    | some c => exact ⟨c, rfl⟩
    | none =>
        rw [List.getLast?_eq_none_iff] at hl
        exact absurd (String.ext hl) hmsg
  rw [query_two_lines msg c s1 s2 rest m hc hopen hs]
  refine ⟨rfl, rfl, rfl, by simp, rfl⟩

/-- C1 witness: the query protocol theorem applied to `wave` with the
device echoing `WAVE?` and answering `500.123`. -/
theorem query_one_write_two_reads_witness :
    (("wave" : String) ≠ "" ∧
     (demoM (demoScript "WAVE?\r\n" "500.123\r\n"))._com.is_open = true ∧
     (demoM (demoScript "WAVE?\r\n" "500.123\r\n"))._com.script =
       ReadEvent.bytes (RawBytes.decodable "WAVE?\r\n") ::
         ReadEvent.bytes (RawBytes.decodable "500.123\r\n") :: []) ∧
    ((Monochromator.query "wave" (demoM (demoScript "WAVE?\r\n" "500.123\r\n"))).2 =
        Except.ok { statement := pyRstrip "WAVE?\r\n", response := pyRstrip "500.123\r\n" } ∧
     (Monochromator.query "wave" (demoM (demoScript "WAVE?\r\n" "500.123\r\n"))).1._com.writeCalls =
        (demoM (demoScript "WAVE?\r\n" "500.123\r\n"))._com.writeCalls + 1 ∧
     (Monochromator.query "wave" (demoM (demoScript "WAVE?\r\n" "500.123\r\n"))).1._com.readCalls =
        (demoM (demoScript "WAVE?\r\n" "500.123\r\n"))._com.readCalls + 2 ∧
     (Monochromator.query "wave" (demoM (demoScript "WAVE?\r\n" "500.123\r\n"))).1._com.written.length =
        (demoM (demoScript "WAVE?\r\n" "500.123\r\n"))._com.written.length + 1 ∧
     (Monochromator.query "wave" (demoM (demoScript "WAVE?\r\n" "500.123\r\n"))).1._com.script = []) :=
  ⟨⟨by decide, rfl, rfl⟩,
   query_one_write_two_reads "wave" "WAVE?\r\n" "500.123\r\n" []
     (demoM (demoScript "WAVE?\r\n" "500.123\r\n")) (by decide) rfl rfl⟩

/-- C6 (amended): `shuttered` returns true exactly when the second
line read, after stripping trailing whitespace, equals `"C"`; every
other stripped value yields false. -/
theorem shuttered_iff_stripped_C (s1 s2 : String) (rest : List ReadEvent)
    (m : Monochromator)
    (hopen : m._com.is_open = true)
    (hs : m._com.script = ReadEvent.bytes (RawBytes.decodable s1) ::
            ReadEvent.bytes (RawBytes.decodable s2) :: rest) :
    (Monochromator.shuttered m).2 = Except.ok (pyRstrip s2 == "C") := by
  rw [Monochromator.shuttered, query_two_lines "shutter" 'r' s1 s2 rest m rfl hopen hs]

/-- C6 witness: a device answering `O` (shutter open) yields false. -/
theorem shuttered_iff_stripped_C_witness :
    ((demoM (demoScript "SHUTTER?\r\n" "O\r\n"))._com.is_open = true ∧
     (demoM (demoScript "SHUTTER?\r\n" "O\r\n"))._com.script =
       ReadEvent.bytes (RawBytes.decodable "SHUTTER?\r\n") ::
         ReadEvent.bytes (RawBytes.decodable "O\r\n") :: []) ∧
    (Monochromator.shuttered (demoM (demoScript "SHUTTER?\r\n" "O\r\n"))).2 =
      Except.ok (pyRstrip "O\r\n" == "C") :=
  ⟨⟨rfl, rfl⟩,
   shuttered_iff_stripped_C "SHUTTER?\r\n" "O\r\n" []
     (demoM (demoScript "SHUTTER?\r\n" "O\r\n")) rfl rfl⟩

/-- C7: `query "wave"` and `query "WAVE?"` behave identically on every
driver state — in particular they write identical byte sequences — and
on a fresh driver those bytes are the frame `WAVE?\r\n`: the `?` is
appended only when missing and uppercasing makes framing
case-insensitive, so normalization is idempotent. -/
theorem query_wave_normalization :
    (∀ m : Monochromator, Monochromator.query "wave" m = Monochromator.query "WAVE?" m) ∧
    (Monochromator.query "wave" (demoM (demoScript "WAVE?\r\n" "500.123\r\n"))).1._com.written
      = [utf8Bytes "WAVE?\r\n"] := by
  have hw : ∀ m : Monochromator,
      Monochromator.write "wave?" m = Monochromator.write "WAVE?" m := by
    intro m
    simp only [Monochromator.write]
    rw [pyUpper_append, pyUpper_append, show pyUpper "wave?" = pyUpper "WAVE?" from rfl]
  refine ⟨fun m => ?_, by decide⟩
  simp only [Monochromator.query]
  rw [show ("wave".data.getLast?) = some 'e' from rfl,
      show ("WAVE?".data.getLast?) = some '?' from rfl]
  simp only [reduceCtorEq, reduceIte]
  rw [if_pos (show ('e' : Char) ≠ '?' by decide)]
  rw [if_neg (show ¬(('?' : Char) ≠ '?') by decide)]
  rw [show ("wave" ++ "?" : String) = "wave?" from rfl]
  rw [hw m]

/-- C5 counterexample: with the empty argument list, `command "abort"`
does not send the space-joined message `abort` (which frames to
`ABORT\r\n`): the source builds `cmd + ' ' + ' '.join(args)`, leaving
a trailing space, so the frame on the wire is `ABORT \r\n`. -/
theorem command_empty_args_trailing_space_ce :
    (Monochromator.command "abort" []
        (demoM [ReadEvent.bytes (RawBytes.decodable "ABORT\r\n")])).1._com.written
      = [utf8Bytes (pyUpper ("abort " ++ "\r\n"))] ∧
    utf8Bytes (pyUpper ("abort " ++ "\r\n"))
      ≠ utf8Bytes (pyUpper (String.intercalate " " ("abort" :: ([] : List String)) ++ "\r\n")) :=
  ⟨by decide, by decide⟩

/-- C5 (amended): `command(name, args)` builds the outgoing message as
`name + ' ' + join(args)` — the space-joined form preceded by `name`
and a single space, hence a trailing space when `args` is empty —
writes it once, reads exactly once, and returns the line stripped of
trailing whitespace. -/
theorem command_builds_writes_reads_once (cmd : String) (args : List String)
    (s : String) (rest : List ReadEvent) (m : Monochromator)
    (hopen : m._com.is_open = true)
    (hs : m._com.script = ReadEvent.bytes (RawBytes.decodable s) :: rest) :
    Monochromator.command cmd args m =
      ({ m with _com := { m._com with
          script := rest,
          written := m._com.written ++
            [utf8Bytes (pyUpper ((cmd ++ " " ++ String.intercalate " " args) ++ m.term_chars))],
          writeCalls := m._com.writeCalls + 1,
          readCalls := m._com.readCalls + 1 } },
       Except.ok (pyRstrip s)) := by
  simp [Monochromator.command, Monochromator.write, Monochromator.read,
        serialWrite, serialReadUntil, hopen, hs]

/-- C5 witness: `command "grat" ["2"]` on a fresh driver with the
device echoing the statement line. -/
theorem command_builds_writes_reads_once_witness :
    ((demoM [ReadEvent.bytes (RawBytes.decodable "GRAT 2\r\n")])._com.is_open = true ∧
     (demoM [ReadEvent.bytes (RawBytes.decodable "GRAT 2\r\n")])._com.script =
       ReadEvent.bytes (RawBytes.decodable "GRAT 2\r\n") :: []) ∧
    Monochromator.command "grat" ["2"] (demoM [ReadEvent.bytes (RawBytes.decodable "GRAT 2\r\n")]) =
      ({ demoM [ReadEvent.bytes (RawBytes.decodable "GRAT 2\r\n")] with _com :=
          { (demoM [ReadEvent.bytes (RawBytes.decodable "GRAT 2\r\n")])._com with
            script := [],
            written := (demoM [ReadEvent.bytes (RawBytes.decodable "GRAT 2\r\n")])._com.written ++
              [utf8Bytes (pyUpper (("grat" ++ " " ++ String.intercalate " " ["2"]) ++
                (demoM [ReadEvent.bytes (RawBytes.decodable "GRAT 2\r\n")]).term_chars))],
            writeCalls := (demoM [ReadEvent.bytes (RawBytes.decodable "GRAT 2\r\n")])._com.writeCalls + 1,
            readCalls := (demoM [ReadEvent.bytes (RawBytes.decodable "GRAT 2\r\n")])._com.readCalls + 1 } },
       Except.ok (pyRstrip "GRAT 2\r\n")) :=
  ⟨⟨rfl, rfl⟩,
   command_builds_writes_reads_once "grat" ["2"] "GRAT 2\r\n" []
     (demoM [ReadEvent.bytes (RawBytes.decodable "GRAT 2\r\n")]) rfl rfl⟩

/-- C9: when the transport read reports that the terminator was never
observed within the timeout, `read` fails with the timeout error — it
never returns a string as success — and that error is a different
value from the encoding error and from the transport I/O error. -/
theorem read_timeout_error_distinguishable (rest : List ReadEvent)
    (m : Monochromator)
    (hopen : m._com.is_open = true)
    (hs : m._com.script = ReadEvent.timeout :: rest) :
    (Monochromator.read m).2 = Except.error PyError.timeoutError ∧
    (∀ s : String, (Monochromator.read m).2 ≠ Except.ok s) ∧
    PyError.timeoutError ≠ PyError.encodingError ∧
    PyError.timeoutError ≠ PyError.transportError := by
  have h1 : (Monochromator.read m).2 = Except.error PyError.timeoutError := by
    simp [Monochromator.read, serialReadUntil, hopen, hs]
  refine ⟨h1, fun s hcon => ?_, by decide, by decide⟩
  rw [h1] at hcon
  cases hcon

/-- C9 witness: a device that stays silent for one read. -/
theorem read_timeout_error_distinguishable_witness :
    ((demoM [ReadEvent.timeout])._com.is_open = true ∧
     (demoM [ReadEvent.timeout])._com.script = ReadEvent.timeout :: []) ∧
    ((Monochromator.read (demoM [ReadEvent.timeout])).2 =
        Except.error PyError.timeoutError ∧
     (∀ s : String, (Monochromator.read (demoM [ReadEvent.timeout])).2 ≠ Except.ok s) ∧
     PyError.timeoutError ≠ PyError.encodingError ∧
     PyError.timeoutError ≠ PyError.transportError) :=
  ⟨⟨rfl, rfl⟩,
   read_timeout_error_distinguishable [] (demoM [ReadEvent.timeout]) rfl rfl⟩

/-- C3 counterexample: on a disconnected driver, `info` fails with the
transport's pyserial port-not-open error, not with a driver-level
not-connected error (the source defines no such check), and the
transport write was attempted once before failing. -/
theorem disconnected_info_error_ce :
    (Monochromator.info demoDisconnected).2 = Except.error PyError.portNotOpen ∧
    PyError.portNotOpen ≠ PyError.notConnectedError ∧
    (Monochromator.info demoDisconnected).1._com.writeCalls =
      demoDisconnected._com.writeCalls + 1 :=
  ⟨rfl, by decide, rfl⟩

/-- C3 (amended): every high-level operation invoked while the port is
closed fails with the transport's port-not-open error raised by the
attempted transport write: the driver performs no connection-state
check of its own, one transport write is attempted, no bytes are
written, and no read occurs. -/
theorem disconnected_ops_port_not_open (m : Monochromator) (w : String)
    (g p sl : Int) (b : Bool) (width : Option Int)
    (h : m._com.is_open = false) :
    Monochromator.info m = (failedWriteState m, Except.error PyError.portNotOpen) ∧
    Monochromator.position m = (failedWriteState m, Except.error PyError.portNotOpen) ∧
    Monochromator.goto w m = (failedWriteState m, Except.error PyError.portNotOpen) ∧
    Monochromator.abort m = (failedWriteState m, Except.error PyError.portNotOpen) ∧
    Monochromator.grating m = (failedWriteState m, Except.error PyError.portNotOpen) ∧
    Monochromator.set_grating g m = (failedWriteState m, Except.error PyError.portNotOpen) ∧
    Monochromator.shuttered m = (failedWriteState m, Except.error PyError.portNotOpen) ∧
    Monochromator.shutter b m = (failedWriteState m, Except.error PyError.portNotOpen) ∧
    Monochromator.outport m = (failedWriteState m, Except.error PyError.portNotOpen) ∧
    Monochromator.set_outport p m = (failedWriteState m, Except.error PyError.portNotOpen) ∧
    Monochromator.slit_width sl width m = (failedWriteState m, Except.error PyError.portNotOpen) ∧
    (failedWriteState m)._com.written = m._com.written ∧
    (failedWriteState m)._com.readCalls = m._com.readCalls ∧
    (failedWriteState m)._com.writeCalls = m._com.writeCalls + 1 := by
  have hlast : ("slit" ++ toString sl ++ "microns").data.getLast? = some 's' := by
    rw [String.data_append, List.getLast?_append]
    rfl
  refine ⟨?_, ?_, ?_, ?_, ?_, ?_, ?_, ?_, ?_, ?_, ?_, rfl, rfl, rfl⟩
  · simp [Monochromator.info, query_closed "info" 'o' m rfl h, failedWriteState]
  · simp [Monochromator.position, query_closed "wave" 'e' m rfl h, failedWriteState]
  · simp [Monochromator.goto, command_closed "gowave" [w] m h, failedWriteState]
  · simp [Monochromator.abort, command_closed "abort" [] m h, failedWriteState]
  · simp [Monochromator.grating, query_closed "grat" 't' m rfl h, failedWriteState]
  · simp [Monochromator.set_grating, command_closed "grat" [toString g] m h, failedWriteState]
  · simp [Monochromator.shuttered, query_closed "shutter" 'r' m rfl h, failedWriteState]
  · cases b <;>
      simp [Monochromator.shutter, command_closed "shutter" ["C"] m h,
            command_closed "shutter" ["O"] m h, failedWriteState]
  · simp [Monochromator.outport, query_closed "outport" 't' m rfl h, failedWriteState]
  · simp [Monochromator.set_outport, command_closed "outport" [toString p] m h, failedWriteState]
  · cases width with
    | none =>
        simp [Monochromator.slit_width,
              query_closed ("slit" ++ toString sl ++ "microns") 's' m hlast h, failedWriteState]
    | some ww =>
        simp [Monochromator.slit_width,
              command_closed ("slit" ++ toString sl ++ "microns") [toString ww] m h,
              failedWriteState]

/-- C3 witness: the amended disconnected-behaviour theorem applied to
a freshly disconnected driver. -/
theorem disconnected_ops_port_not_open_witness :
    (demoDisconnected._com.is_open = false) ∧
    Monochromator.abort demoDisconnected =
      (failedWriteState demoDisconnected, Except.error PyError.portNotOpen) ∧
    Monochromator.slit_width 1 (some 50) demoDisconnected =
      (failedWriteState demoDisconnected, Except.error PyError.portNotOpen) :=
  ⟨rfl,
   (disconnected_ops_port_not_open demoDisconnected "600.000" 1 1 1 true (some 50) rfl).2.2.2.1,
   (disconnected_ops_port_not_open demoDisconnected "600.000" 1 1 1 true (some 50) rfl).2.2.2.2.2.2.2.2.2.2.1⟩

end Cornerstone

